import Mathlib

/-!
Verification of the discogs-tool pipeline specification against a shallow
embedding of its Python sources.

Conventions of the embedding:
* times are modelled exactly in milliseconds (`ℕ`/`ℤ`); pydub's
  `len(audio)` is the total length in ms, and Python float seconds
  (`total_ms / 1000.0`) are handled exactly, e.g.
  `int((total_ms/1000 - dur)/2) = (total_ms - 1000*dur).tdiv 2000`
  (Python `int()` truncates toward zero, which is `Int.tdiv`);
* composer durations (moviepy floats) are modelled by `ℚ`;
* pydub slicing `audio[a:b]` clamps the stop bound to the total length,
  so a trim operation is modelled by the half-open millisecond interval
  it extracts, as a pair `(start, stop)`;
* fallible operations and external effects (yt-dlp, HTTP, filesystem)
  enter the model as explicit parameters (success flags, status oracles).
-/

namespace DiscogsTool

/-! ### Audio extraction / trimming

Sources: `yt_download_audio_by_url` and `trim_local_mp3` in
`app_discogs_to_videos.py`, `yt_search_and_download_mp3` in
`discogs_tool/src/make_videos.py`, and `yt_download_audio_by_url` in
`streamlit_app.py`.  Inputs: `totalMs` = `len(audio)` in ms;
`startSec`, `durationSec` = the integer second arguments. -/

/-- The recentered start (seconds) of the short-track rule:
`max(0, int((total_sec - duration_sec) / 2))`, with
`total_sec = total_ms / 1000.0`, written exactly over the integers. -/
def shortTrackStart (totalMs durationSec : ℕ) : ℤ :=
  max 0 (((totalMs : ℤ) - 1000 * durationSec).tdiv 2000)

/-- Effective start offset (seconds) computed by
`yt_download_audio_by_url` in `app_discogs_to_videos.py`: recenters when
`total_sec < 150` (i.e. `total_ms < 150000`), otherwise the
caller-supplied start. -/
def effStartYtUrlApp (totalMs startSec durationSec : ℕ) : ℤ :=
  if totalMs < 150000 then shortTrackStart totalMs durationSec
  else (startSec : ℤ)

/-- Effective start offset (seconds) computed by `trim_local_mp3` in
`app_discogs_to_videos.py` (same short-track rule as the by-URL path). -/
def effStartTrimLocal (totalMs startSec durationSec : ℕ) : ℤ :=
  if totalMs < 150000 then shortTrackStart totalMs durationSec
  else (startSec : ℤ)

/-- Effective start offset (seconds) used by `yt_search_and_download_mp3`
in `discogs_tool/src/make_videos.py`: `start_ms = start_sec * 1000`
directly, with no short-track recentering. -/
def effStartYtSearch (_totalMs startSec _durationSec : ℕ) : ℤ :=
  (startSec : ℤ)

/-- Effective start offset (seconds) used by `yt_download_audio_by_url`
in `streamlit_app.py`: `start_ms = start_sec * 1000` directly, with no
short-track recentering. -/
def effStartYtUrlStreamlit (_totalMs startSec _durationSec : ℕ) : ℤ :=
  (startSec : ℤ)

/-- `start_ms = int(eff_start_sec * 1000)` for an effective start in
seconds (nonnegative at every call site, hence `toNat`). -/
def startMsFrom (eff : ℤ) : ℕ := (eff * 1000).toNat

/-- Millisecond interval extracted by `yt_download_audio_by_url`
(`app_discogs_to_videos.py`): `audio[start_ms:end_ms]` when
`total_ms > start_ms`, otherwise `audio[:duration_sec*1000]`;
pydub clamps the stop bound to the total length. -/
def ytUrlAppClip (totalMs startSec durationSec : ℕ) : ℕ × ℕ :=
  let startMs := startMsFrom (effStartYtUrlApp totalMs startSec durationSec)
  let endMs := startMs + durationSec * 1000
  if totalMs > startMs then (startMs, min endMs totalMs)
  else (0, min (durationSec * 1000) totalMs)

/-- Millisecond interval extracted by `trim_local_mp3`
(`app_discogs_to_videos.py`): `audio[:duration_sec*1000]` when
`total_ms <= start_ms`, otherwise `audio[start_ms:end_ms]`. -/
def trimLocalClip (totalMs startSec durationSec : ℕ) : ℕ × ℕ :=
  let startMs := startMsFrom (effStartTrimLocal totalMs startSec durationSec)
  let endMs := startMs + durationSec * 1000
  if totalMs ≤ startMs then (0, min (durationSec * 1000) totalMs)
  else (startMs, min endMs totalMs)

/-- Millisecond interval extracted by `yt_search_and_download_mp3`
(`discogs_tool/src/make_videos.py`). -/
def ytSearchClip (totalMs startSec durationSec : ℕ) : ℕ × ℕ :=
  let startMs := startMsFrom (effStartYtSearch totalMs startSec durationSec)
  let endMs := startMs + durationSec * 1000
  if totalMs > startMs then (startMs, min endMs totalMs)
  else (0, min (durationSec * 1000) totalMs)

/-- Millisecond interval extracted by `yt_download_audio_by_url`
(`streamlit_app.py`). -/
def ytUrlStreamlitClip (totalMs startSec durationSec : ℕ) : ℕ × ℕ :=
  let startMs := startMsFrom (effStartYtUrlStreamlit totalMs startSec durationSec)
  let endMs := startMs + durationSec * 1000
  if totalMs > startMs then (startMs, min endMs totalMs)
  else (0, min (durationSec * 1000) totalMs)

/-! ### Video composition

Sources: `make_video` in `app_discogs_to_videos.py`, `make_video` in
`discogs_tool/src/make_videos.py`, and `make_video` in
`streamlit_app.py`.  `durationSec` is the requested duration and
`audioDur` the duration moviepy reports for the audio clip; both are
float seconds, modelled by `ℚ`. -/

/-- The safety margin `epsilon = 0.10` used by the two full composers. -/
def epsilonQ : ℚ := 1 / 10

/-- Output duration computed by `make_video` in
`app_discogs_to_videos.py`:
`safe = max(0, audio_dur - 0.10)`;
`effective = duration_sec if safe <= 0 else min(duration_sec, safe)`;
`if effective <= 0: effective = audio_dur if audio_dur and audio_dur > 0
else 5.0`. -/
def effectiveDurApp (durationSec audioDur : ℚ) : ℚ :=
  let safe := max 0 (audioDur - epsilonQ)
  let e := if safe ≤ 0 then durationSec else min durationSec safe
  if e ≤ 0 then (if 0 < audioDur then audioDur else 5) else e

/-- Output duration computed by `make_video` in
`discogs_tool/src/make_videos.py`: same as the app composer except the
final fallback is `aud_clip.duration or 5.0` (the audio duration unless
it is zero). -/
def effectiveDurMakeVideos (durationSec audioDur : ℚ) : ℚ :=
  let safe := max 0 (audioDur - epsilonQ)
  let e := if safe ≤ 0 then durationSec else min durationSec safe
  if e ≤ 0 then (if audioDur = 0 then 5 else audioDur) else e

/-- Output duration computed by `make_video` in `streamlit_app.py`:
`set_duration(duration_sec)` and `subclip(0, duration_sec)` with no
inspection of the audio duration at all. -/
def effectiveDurStreamlit (durationSec _audioDur : ℚ) : ℚ := durationSec

/-- Image scaling of `make_video` in `app_discogs_to_videos.py`:
`resize(height=1080 if w < h else None, width=1080 if w >= h else None)`
— proportional scaling, so the other dimension is `dim * 1080 / scaled`. -/
def resizeApp (w h : ℚ) : ℚ × ℚ :=
  if w < h then (w * 1080 / h, 1080) else (1080, h * 1080 / w)

/-- Image scaling of `make_video` in `discogs_tool/src/make_videos.py`:
always `resize(height=1080)` — proportional scaling by height only. -/
def resizeMakeVideos (w h : ℚ) : ℚ × ℚ := (w * 1080 / h, 1080)

/-- Frame size forced by `on_color(size=(1080, 1080), ...)` in both
composers: the composite takes the size of the colour background, so
the output frame is always exactly this canvas (a scaled image larger
than the canvas is cropped to it). -/
def onColorCanvas : ℚ × ℚ := (1080, 1080)

/-! ### Container-status polling

Sources: `ig_wait_finished` in `app_post_instagram.py` (identical to
the one in `publish_gcs_to_ig.py`) and `ig_wait_finished` in
`streamlit_app.py`.  The status reported by the Graph API on the k-th
poll attempt is an oracle `poll : ℕ → IgStatus`; the timeout budget is
the number of attempts `fuel` that fit in the window. -/

/-- Container status codes distinguished by the polling loops. -/
inductive IgStatus where
  | finished
  | published
  | error
  | expired
  | inProgress
  | unknown
  deriving DecidableEq, Repr

/-- `status in ("FINISHED", "PUBLISHED")`. -/
def IgStatus.isReady : IgStatus → Bool
  | .finished => true
  | .published => true
  | _ => false

/-- `status in ("ERROR", "EXPIRED")`. -/
def IgStatus.isFailedState : IgStatus → Bool
  | .error => true
  | .expired => true
  | _ => false

/-- Outcome of a polling loop: returned normally with a status, raised
`RuntimeError` on an explicit failure status, or raised `TimeoutError`
after exhausting the budget. -/
inductive WaitResult where
  | ready (s : IgStatus)
  | failed (s : IgStatus)
  | timeout
  deriving DecidableEq, Repr

/-- `true` iff the loop returned normally. -/
def WaitResult.isReadyR : WaitResult → Bool
  | .ready _ => true
  | _ => false

/-- `ig_wait_finished` of `app_post_instagram.py`, polling from attempt
`k` with `fuel` attempts left: return on FINISHED/PUBLISHED, raise
`RuntimeError` on ERROR/EXPIRED, otherwise sleep and repeat; raise
`TimeoutError` when the budget is exhausted. -/
def igWaitFinishedAppAux (poll : ℕ → IgStatus) : ℕ → ℕ → WaitResult
  | _, 0 => .timeout
  | k, fuel + 1 =>
    let s := poll k
    if s.isReady then .ready s
    else if s.isFailedState then .failed s
    else igWaitFinishedAppAux poll (k + 1) fuel

/-- `ig_wait_finished` of `app_post_instagram.py` started at attempt 0. -/
def igWaitFinishedApp (poll : ℕ → IgStatus) (fuel : ℕ) : WaitResult :=
  igWaitFinishedAppAux poll 0 fuel

/-- `ig_wait_finished` of `streamlit_app.py`, polling from attempt `k`:
return on FINISHED/PUBLISHED, otherwise sleep and repeat — there is no
ERROR/EXPIRED branch; raise `TimeoutError` when the budget is
exhausted. -/
def igWaitFinishedStreamlitAux (poll : ℕ → IgStatus) : ℕ → ℕ → WaitResult
  | _, 0 => .timeout
  | k, fuel + 1 =>
    let s := poll k
    if s.isReady then .ready s
    else igWaitFinishedStreamlitAux poll (k + 1) fuel

/-- `ig_wait_finished` of `streamlit_app.py` started at attempt 0. -/
def igWaitFinishedStreamlit (poll : ℕ → IgStatus) (fuel : ℕ) : WaitResult :=
  igWaitFinishedStreamlitAux poll 0 fuel

/-! ### Carousel publishing

Sources: the `Publicar seleccionados como carrusel` loop in
`app_post_instagram.py` and the `Publicar carrusel` block in
`streamlit_app.py`.  `n` is the number of videos of the release folder;
`preOk i` tells whether the GCS upload and child-container creation for
video `i` succeed; `childPoll i` / `childFuel i` drive the status poll
for child `i`, and `parentPoll` / `parentFuel` drive the poll of the
carousel parent; `parentCreateOk` tells whether parent creation
succeeds.  The publish call itself is past the property of interest, so
the outcome records whether it was issued at all. -/

/-- What a publish flow did for one release folder. -/
structure PublishOutcome where
  /-- ids (video indices) appended to the `children` list. -/
  children : List ℕ
  /-- whether `ig_create_carousel_parent` was called. -/
  parentAttempted : Bool
  /-- whether the parent container was created (call made and succeeded). -/
  parentCreated : Bool
  /-- whether `ig_publish` was called. -/
  publishIssued : Bool
  /-- video indices whose upload/child processing was attempted. -/
  attempted : List ℕ
  deriving DecidableEq, Repr

/-- The carousel publish flow of `app_post_instagram.py` for one
selected folder: every video is attempted inside its own
`try/except` (a failure is logged and the loop continues); a video
index joins `children` only if its upload and container creation
succeed and `ig_wait_finished` returns; the parent is created only
`if children:`, then polled with `ig_wait_finished`, and `ig_publish`
is called only when that poll returns. -/
def publishFlowApp (n : ℕ) (preOk : ℕ → Bool) (childPoll : ℕ → ℕ → IgStatus)
    (childFuel : ℕ → ℕ) (parentCreateOk : Bool) (parentPoll : ℕ → IgStatus)
    (parentFuel : ℕ) : PublishOutcome :=
  let children := (List.range n).filter
    (fun i => preOk i && (igWaitFinishedApp (childPoll i) (childFuel i)).isReadyR)
  let pa := !children.isEmpty
  let pc := pa && parentCreateOk
  let pub := pc && (igWaitFinishedApp parentPoll parentFuel).isReadyR
  ⟨children, pa, pc, pub, List.range n⟩

/-- The children loop of the `Publicar carrusel` block in
`streamlit_app.py`, processing videos `k, k+1, ...` with `n` left: the
whole loop runs inside one `try`, so the first failing video raises
out of the loop and the remaining videos are never attempted.  Returns
`(children, attempted, completed)`. -/
def streamlitChildrenLoop (childOk : ℕ → Bool) : ℕ → ℕ → List ℕ × List ℕ × Bool
  | _, 0 => ([], [], true)
  | k, n + 1 =>
    if childOk k then
      let r := streamlitChildrenLoop childOk (k + 1) n
      (k :: r.1, k :: r.2.1, r.2.2)
    else ([], [k], false)

/-- The carousel publish block of `streamlit_app.py` for one folder:
children loop, parent creation, parent poll and publish all inside one
`try`; the parent is created only when the children loop completed, is
then polled with the streamlit `ig_wait_finished`, and `ig_publish`
runs only when that poll returns. -/
def publishFlowStreamlit (n : ℕ) (preOk : ℕ → Bool) (childPoll : ℕ → ℕ → IgStatus)
    (childFuel : ℕ → ℕ) (parentCreateOk : Bool) (parentPoll : ℕ → IgStatus)
    (parentFuel : ℕ) : PublishOutcome :=
  let r := streamlitChildrenLoop
    (fun i => preOk i && (igWaitFinishedStreamlit (childPoll i) (childFuel i)).isReadyR) 0 n
  let pa := r.2.2
  let pc := pa && parentCreateOk
  let pub := pc && (igWaitFinishedStreamlit parentPoll parentFuel).isReadyR
  ⟨r.1, pa, pc, pub, r.2.1⟩

/-! ### Video generation loops and temp-audio cleanup

Sources: the `Generar todos los videos aprobados` loops in
`app_discogs_to_videos.py` and `streamlit_app.py`, and
`process_release` in `discogs_tool/src/make_videos.py`.  The state of
one track's files on disk is a pair of flags plus the log lines; the
outcome of `make_video` (success or raised exception) is the parameter
`composeOk`.  `unlink` itself is assumed to succeed (both loops guard
it so that an unlink failure only logs). -/

/-- On-disk/UI state for one track while its video is generated. -/
structure FsState where
  /-- the trimmed temporary mp3 exists in the release folder. -/
  mp3Present : Bool
  /-- the output mp4 exists. -/
  videoPresent : Bool
  /-- log lines accumulated so far. -/
  logs : List String
  deriving DecidableEq, Repr

/-- Composition attempt of the `app_discogs_to_videos.py` loop
(lines 611–627): `try: make_video; log OK / except: log ERROR`, then a
`finally:` block that always unlinks the mp3 and logs the deletion. -/
def trackBodyApp (composeOk : Bool) (s : FsState) : FsState :=
  let s1 :=
    if composeOk then { s with videoPresent := true, logs := s.logs ++ ["OK"] }
    else { s with logs := s.logs ++ ["ERROR video"] }
  { s1 with mp3Present := false, logs := s1.logs ++ ["borrado MP3"] }

/-- Composition attempt of the `streamlit_app.py` loop (lines 460–469):
`try: make_video; unlink mp3; log OK / except: log ERROR` — the unlink
sits inside the `try` after `make_video`, so it only runs when
composition succeeded. -/
def trackBodyStreamlit (composeOk : Bool) (s : FsState) : FsState :=
  if composeOk then
    { s with videoPresent := true, mp3Present := false, logs := s.logs ++ ["OK"] }
  else { s with logs := s.logs ++ ["ERROR video"] }

/-- Composition attempt of `process_release` in
`discogs_tool/src/make_videos.py` (lines 183–192): `try: make_video /
except: print error`, then an unconditional `mp3_path.unlink()` after
the handler. -/
def trackBodyProcessRelease (composeOk : Bool) (s : FsState) : FsState :=
  let s1 := if composeOk then { s with videoPresent := true } else s
  { s1 with mp3Present := false }

/-- What happened to one track before/at composition. -/
inductive GenOutcome where
  | skipNoTitle
  | skipNoSelection
  | audioFail
  | compose (ok : Bool)
  deriving DecidableEq, Repr

/-- One iteration of the `app_discogs_to_videos.py` generation loop:
every branch ends in `continue`/fall-through, never in an abort. -/
def genTrackApp : GenOutcome → FsState → FsState
  | .skipNoTitle, s => s
  | .skipNoSelection, s => { s with logs := s.logs ++ ["SKIP"] }
  | .audioFail, s => { s with logs := s.logs ++ ["ERROR audio"] }
  | .compose ok, s => trackBodyApp ok s

/-- One iteration of the `streamlit_app.py` generation loop. -/
def genTrackStreamlit : GenOutcome → FsState → FsState
  | .skipNoTitle, s => s
  | .skipNoSelection, s => { s with logs := s.logs ++ ["SKIP"] }
  | .audioFail, s => { s with logs := s.logs ++ ["ERROR audio"] }
  | .compose ok, s => trackBodyStreamlit ok s

/-- The whole `app_discogs_to_videos.py` generation loop over the
per-track outcomes; also returns the number of tracks processed (the
`done` counter). -/
def genLoopApp : List GenOutcome → FsState → FsState × ℕ
  | [], s => (s, 0)
  | o :: rest, s =>
    let r := genLoopApp rest (genTrackApp o s)
    (r.1, r.2 + 1)

/-- The whole `streamlit_app.py` generation loop over the per-track
outcomes, with the `done` counter. -/
def genLoopStreamlit : List GenOutcome → FsState → FsState × ℕ
  | [], s => (s, 0)
  | o :: rest, s =>
    let r := genLoopStreamlit rest (genTrackStreamlit o s)
    (r.1, r.2 + 1)

/-! ### Marketplace price merging

Source: `fetch_release_info` in `discogs_tool/src/discogs_meta.py`,
lines 260–276.  `pmin/pmed/pmax` are the values of the primary stats
endpoint (`fetch_market_stats`), `smin/smed/smax` those the
price-suggestion fallback would return; prices are floats, modelled by
`ℚ`. -/

/-- The price-merging step: the fallback endpoint is consulted only
when `pmed is None or pmax is None`, and each of the three fields is
overwritten only if it is `None`. -/
def fillMissingPrices (pmin pmed pmax smin smed smax : Option ℚ) :
    Option ℚ × Option ℚ × Option ℚ :=
  if pmed.isNone || pmax.isNone then
    (if pmin.isNone then smin else pmin,
     if pmed.isNone then smed else pmed,
     if pmax.isNone then smax else pmax)
  else (pmin, pmed, pmax)

/-! ### Release/master URL parsing

Source: `_extract_release_or_master_id` in
`discogs_tool/src/discogs_meta.py`.  The input is the path component
produced by `urlparse` (taking `urlparse` itself, a library call, as
the model boundary); Python's `parsed.path.split("/")` is a split on
every `'/'`, re-implemented here over `List Char` because it must be
executable inside the kernel.  `re.match(r"(\d+)", s)` matches a
maximal leading run of digits. -/

/-- `s.split("/")` for the one-character separator `'/'`: cut at every
slash, keeping empty pieces (`acc` is the current piece, reversed). -/
def splitSlashAux : List Char → List Char → List (List Char)
  | [], acc => [acc.reverse]
  | c :: rest, acc =>
    if c = '/' then acc.reverse :: splitSlashAux rest []
    else splitSlashAux rest (c :: acc)

/-- `[p for p in parsed.path.split("/") if p]`. -/
def pathSegments (path : String) : List String :=
  ((splitSlashAux path.data []).filter (fun cs => cs ≠ [])).map String.mk

/-- `if len(parts) >= 2 and len(parts[0]) == 2: parts = parts[1:]` —
drop one leading two-character (language) segment. -/
def dropLangPrefix (parts : List String) : List String :=
  match parts with
  | a :: b :: rest => if a.length = 2 then b :: rest else a :: b :: rest
  | _ => parts

/-- `re.match(r"(\d+)", s)` followed by `int(match.group(1))`: `none`
when `s` does not start with a digit, otherwise the value of the
maximal leading digit run. -/
def leadingNat (s : String) : Option ℕ :=
  match s.data.takeWhile Char.isDigit with
  | [] => none
  | ds => some (ds.foldl (fun n c => n * 10 + (c.toNat - 48)) 0)

/-- `_extract_release_or_master_id`, on the URL's path: `some (kind,
id)` where the source returns `(kind, id)`, `none` where it raises
`ValueError`. -/
def extractReleaseOrMasterId (path : String) : Option (String × ℕ) :=
  match dropLangPrefix (pathSegments path) with
  | kind :: second :: _ =>
    if kind = "release" ∨ kind = "master" then
      (leadingNat second).map (fun n => (kind, n))
    else none
  | _ => none

/-- The parsing condition exactly as the claim words it: the path,
after optionally dropping a single leading two-character segment,
consists of a segment equal to `release` or `master` followed by a
segment beginning with one or more digits. -/
def specUrlParses (path : String) : Prop :=
  ∃ rest : List String,
    (pathSegments path = rest ∨
      ∃ x : String, x.length = 2 ∧ pathSegments path = x :: rest) ∧
    ∃ kind second tail, rest = kind :: second :: tail ∧
      (kind = "release" ∨ kind = "master") ∧
      ∃ c cs, second.data = c :: cs ∧ c.isDigit

/-! ## Theorems -/

/-- C1, counterexample: a 100 s source is shorter than 150 s and the
short-track rule gives start `max(0, (100 - 30)/2) = 35` s, but the
search-downloaded extraction path (`yt_search_and_download_mp3`) keeps
the caller-supplied default start of 90 s and clips at 90000 ms, so the
recentering does not hold on every extraction path. -/
theorem claim1_counterexample :
    100000 < 150000 ∧
    shortTrackStart 100000 30 = 35 ∧
    effStartYtSearch 100000 90 30 = 90 ∧
    (ytSearchClip 100000 90 30).1 = 90000 ∧
    effStartYtSearch 100000 90 30 ≠ shortTrackStart 100000 30 := by
  decide

/-- C1, amended: for sources shorter than 150 s, the effective start
offset equals `max(0, int((total_sec - duration_sec)/2))` — independent
of the caller-supplied default start — on the downloaded-by-URL and
local-file paths of `app_discogs_to_videos.py`; the search-downloaded
path of `make_videos.py` and the downloaded-by-URL path of
`streamlit_app.py` apply no recentering and always use the
caller-supplied start. -/
theorem claim1_amended (totalMs startSec durationSec : ℕ)
    (h : totalMs < 150000) :
    effStartYtUrlApp totalMs startSec durationSec
      = max 0 (((totalMs : ℤ) - 1000 * durationSec).tdiv 2000) ∧
    effStartTrimLocal totalMs startSec durationSec
      = max 0 (((totalMs : ℤ) - 1000 * durationSec).tdiv 2000) ∧
    effStartYtSearch totalMs startSec durationSec = startSec ∧
    effStartYtUrlStreamlit totalMs startSec durationSec = startSec := by
  refine ⟨?_, ?_, rfl, rfl⟩ <;>
    simp [effStartYtUrlApp, effStartTrimLocal, shortTrackStart, h]

/-- C1, witness: the amended statement at a 100 s source with the
default start 90 s and duration 30 s. -/
theorem claim1_witness :
    effStartYtUrlApp 100000 90 30
      = max 0 (((100000 : ℤ) - 1000 * 30).tdiv 2000) ∧
    effStartTrimLocal 100000 90 30
      = max 0 (((100000 : ℤ) - 1000 * 30).tdiv 2000) ∧
    effStartYtSearch 100000 90 30 = 90 ∧
    effStartYtUrlStreamlit 100000 90 30 = 90 :=
  claim1_amended 100000 90 30 (by decide)

/-- C6 (confirmed): on each of the four trimming paths, when the total
length in milliseconds is at most the computed start offset in
milliseconds, the extractor clips from time zero, spanning at most
`duration_sec` (the stop bound is `min(duration_sec*1000, total_ms)`). -/
theorem claim6_clip_from_zero (totalMs startSec durationSec : ℕ) :
    (totalMs ≤ startMsFrom (effStartYtUrlApp totalMs startSec durationSec) →
      ytUrlAppClip totalMs startSec durationSec
        = (0, min (durationSec * 1000) totalMs)) ∧
    (totalMs ≤ startMsFrom (effStartTrimLocal totalMs startSec durationSec) →
      trimLocalClip totalMs startSec durationSec
        = (0, min (durationSec * 1000) totalMs)) ∧
    (totalMs ≤ startMsFrom (effStartYtSearch totalMs startSec durationSec) →
      ytSearchClip totalMs startSec durationSec
        = (0, min (durationSec * 1000) totalMs)) ∧
    (totalMs ≤ startMsFrom (effStartYtUrlStreamlit totalMs startSec durationSec) →
      ytUrlStreamlitClip totalMs startSec durationSec
        = (0, min (durationSec * 1000) totalMs)) ∧
    min (durationSec * 1000) totalMs ≤ durationSec * 1000 := by
  refine ⟨fun h => ?_, fun h => ?_, fun h => ?_, fun h => ?_, min_le_left _ _⟩
  · simp only [ytUrlAppClip]
    rw [if_neg (by omega)]
  · simp only [trimLocalClip]
    rw [if_pos h]
  · simp only [ytSearchClip]
    rw [if_neg (by omega)]
  · simp only [ytUrlStreamlitClip]
    rw [if_neg (by omega)]

/-- C6, witness: a zero-length source on the recentering paths and a
50 s source with start 90 s on the non-recentering paths all clip from
zero. -/
theorem claim6_witness :
    ytUrlAppClip 0 90 30 = (0, min (30 * 1000) 0) ∧
    trimLocalClip 0 90 30 = (0, min (30 * 1000) 0) ∧
    ytSearchClip 50000 90 30 = (0, min (30 * 1000) 50000) ∧
    ytUrlStreamlitClip 50000 90 30 = (0, min (30 * 1000) 50000) :=
  ⟨(claim6_clip_from_zero 0 90 30).1 (by decide),
   (claim6_clip_from_zero 0 90 30).2.1 (by decide),
   (claim6_clip_from_zero 50000 90 30).2.2.1 (by decide),
   (claim6_clip_from_zero 50000 90 30).2.2.2.1 (by decide)⟩

/-- C3, counterexample: in the `streamlit_app.py` generation loop, a
failed composition attempt (`make_video` raising) leaves the trimmed
mp3 in the output folder: the unlink sits inside the `try` after
`make_video`, so cleanup is not unconditional on every generation
path. -/
theorem claim3_counterexample :
    (trackBodyStreamlit false ⟨true, false, []⟩).mp3Present = true := by
  decide

/-- C3, amended: once composition is attempted, the intermediate mp3 is
deleted unconditionally (success or failure) in the
`app_discogs_to_videos.py` loop (`finally` block) and in the batch CLI
`process_release`; in the `streamlit_app.py` loop it is deleted only
when composition succeeds, so a failed attempt retains the clip. -/
theorem claim3_amended (composeOk : Bool) (s : FsState) :
    (trackBodyApp composeOk s).mp3Present = false ∧
    (trackBodyProcessRelease composeOk s).mp3Present = false ∧
    (trackBodyStreamlit composeOk s).mp3Present
      = (!composeOk && s.mp3Present) := by
  cases composeOk <;>
    simp [trackBodyApp, trackBodyProcessRelease, trackBodyStreamlit]

/-- C2, counterexample: with the default requested duration 30 s and an
audio clip of 0.05 s, `min(requested, max(0, audio - 0.10)) = 0 ≤ 0`,
so the claim requires the output duration to be the full audio duration
(0.05 s) or the 5 s floor; the `app_discogs_to_videos.py` composer
instead uses the requested 30 s (the fallback to audio/5 s is reached
only when the requested duration itself is ≤ 0). -/
theorem claim2_counterexample :
    min (30 : ℚ) (max 0 (1/20 - epsilonQ)) ≤ 0 ∧
    effectiveDurApp 30 (1/20) = 30 ∧
    (30 : ℚ) ≠ 1/20 ∧
    (30 : ℚ) ≠ 5 := by
  have hm : max (0 : ℚ) (1/20 - epsilonQ) = 0 :=
    max_eq_left (by norm_num [epsilonQ])
  refine ⟨?_, ?_, by norm_num, by norm_num⟩
  · rw [hm]
    exact min_le_right _ _
  · simp only [effectiveDurApp]
    rw [hm, if_pos le_rfl, if_neg (by norm_num)]

/-- C2, amended: for the `app_discogs_to_videos.py` and
`make_videos.py` composers the output duration equals
`min(requested, max(0, audio - 0.10))` whenever that value is > 0; when
it is ≤ 0 the output duration is the requested duration if the
requested duration is > 0, and only for a non-positive requested
duration does it fall back to the full audio duration (5 s when the
audio duration is zero/unusable).  The `streamlit_app.py` composer uses
the requested duration unconditionally. -/
theorem claim2_amended (req audio : ℚ) :
    (0 < min req (max 0 (audio - epsilonQ)) →
      effectiveDurApp req audio = min req (max 0 (audio - epsilonQ)) ∧
      effectiveDurMakeVideos req audio = min req (max 0 (audio - epsilonQ))) ∧
    (min req (max 0 (audio - epsilonQ)) ≤ 0 → 0 < req →
      effectiveDurApp req audio = req ∧
      effectiveDurMakeVideos req audio = req) ∧
    (req ≤ 0 →
      effectiveDurApp req audio = (if 0 < audio then audio else 5) ∧
      effectiveDurMakeVideos req audio = (if audio = 0 then 5 else audio)) ∧
    effectiveDurStreamlit req audio = req := by
  refine ⟨fun h => ?_, fun h h' => ?_, fun h => ?_, rfl⟩
  · obtain ⟨h1, h2⟩ := lt_min_iff.mp h
    constructor <;>
      (simp only [effectiveDurApp, effectiveDurMakeVideos]
       split_ifs <;> first | rfl | linarith)
  · have hs : max 0 (audio - epsilonQ) ≤ 0 := by
      by_contra hc
      push_neg at hc
      exact absurd (lt_min_iff.mpr ⟨h', hc⟩) (not_lt.mpr h)
    constructor <;>
      (simp only [effectiveDurApp, effectiveDurMakeVideos]
       split_ifs <;> first | rfl | linarith)
  · constructor <;>
      (simp only [effectiveDurApp, effectiveDurMakeVideos]
       split_ifs <;>
         first
           | rfl
           | linarith [min_le_left req (max 0 (audio - epsilonQ))])

/-- C2, witness: the amended statement at the default request of 30 s
with a 10 s audio clip: both full composers produce 9.9 s and the
streamlit composer produces 30 s. -/
theorem claim2_witness :
    effectiveDurApp 30 10 = min 30 (max 0 (10 - epsilonQ)) ∧
    effectiveDurMakeVideos 30 10 = min 30 (max 0 (10 - epsilonQ)) ∧
    effectiveDurStreamlit 30 10 = 30 :=
  ⟨((claim2_amended 30 10).1
      (lt_min_iff.mpr ⟨by norm_num,
        lt_max_iff.mpr (Or.inr (by norm_num [epsilonQ]))⟩)).1,
   ((claim2_amended 30 10).1
      (lt_min_iff.mpr ⟨by norm_num,
        lt_max_iff.mpr (Or.inr (by norm_num [epsilonQ]))⟩)).2,
   (claim2_amended 30 10).2.2.2⟩

/-- C7, counterexample: a 2000×1000 cover is wider than tall, but the
`make_videos.py` composer scales it by height (`resize(height=1080)`),
giving a 2160-wide frame instead of a 1080-wide one; the scaled image
exceeds the 1080×1080 canvas, so it is cropped horizontally, not
padded vertically. -/
theorem claim7_counterexample :
    (1000 : ℚ) < 2000 ∧
    resizeMakeVideos 2000 1000 = (2000 * 1080 / 1000, 1080) ∧
    (resizeMakeVideos 2000 1000).1 ≠ 1080 ∧
    ¬ (resizeMakeVideos 2000 1000).1 ≤ onColorCanvas.1 := by
  refine ⟨by norm_num, rfl, ?_, ?_⟩ <;>
    norm_num [resizeMakeVideos, onColorCanvas]

/-- C7, amended: the `app_discogs_to_videos.py` composer scales a
narrower-than-tall image by height and a wider-or-square image by
width, the scaled image always fits inside the fixed 1080×1080 canvas
(fit + pad, never stretch or crop), and the output frame is exactly
the canvas.  The `make_videos.py` composer always scales by height, so
a wider-than-tall image comes out at least 1080 wide and is cropped by
the canvas instead of being padded. -/
theorem claim7_amended (w h : ℚ) (hw : 0 < w) (hh : 0 < h) :
    (w < h →
      resizeApp w h = (w * 1080 / h, 1080) ∧ (resizeApp w h).1 ≤ 1080) ∧
    (h ≤ w →
      resizeApp w h = (1080, h * 1080 / w) ∧ (resizeApp w h).2 ≤ 1080) ∧
    onColorCanvas = (1080, 1080) ∧
    resizeMakeVideos w h = (w * 1080 / h, 1080) ∧
    (h ≤ w → 1080 ≤ (resizeMakeVideos w h).1) := by
  refine ⟨fun hlt => ?_, fun hge => ?_, rfl, rfl, fun hge => ?_⟩
  · refine ⟨by simp [resizeApp, if_pos hlt], ?_⟩
    simp only [resizeApp, if_pos hlt]
    rw [div_le_iff hh]
    nlinarith
  · refine ⟨by simp [resizeApp, if_neg (not_lt.mpr hge)], ?_⟩
    simp only [resizeApp, if_neg (not_lt.mpr hge)]
    rw [div_le_iff hw]
    nlinarith
  · show (1080 : ℚ) ≤ w * 1080 / h
    rw [le_div_iff hh]
    nlinarith

/-- C7, witness: the amended statement at a 540×1080 (narrower than
tall) cover. -/
theorem claim7_witness :
    resizeApp 540 1080 = (540 * 1080 / 1080, 1080) ∧
    (resizeApp 540 1080).1 ≤ 1080 :=
  (claim7_amended 540 1080 (by norm_num) (by norm_num)).1 (by norm_num)

/-- Helper: the `app_post_instagram.py` poll loop returns normally only
with a FINISHED/PUBLISHED status. -/
theorem igWaitFinishedAppAux_ready (poll : ℕ → IgStatus) :
    ∀ fuel k s, igWaitFinishedAppAux poll k fuel = .ready s →
      s.isReady = true := by
  intro fuel
  induction fuel with
  | zero => intro k s hs; simp [igWaitFinishedAppAux] at hs
  | succ n ih =>
    intro k s hs
    rw [igWaitFinishedAppAux] at hs
    by_cases h1 : (poll k).isReady
    · rw [if_pos h1] at hs
      cases hs
      exact h1
    · rw [if_neg h1] at hs
      by_cases h2 : (poll k).isFailedState
      · rw [if_pos h2] at hs
        cases hs
      · rw [if_neg h2] at hs
        exact ih (k + 1) s hs

/-- Helper: the `app_post_instagram.py` poll loop raises the explicit
`RuntimeError` only on an ERROR/EXPIRED status. -/
theorem igWaitFinishedAppAux_failed (poll : ℕ → IgStatus) :
    ∀ fuel k s, igWaitFinishedAppAux poll k fuel = .failed s →
      s.isFailedState = true := by
  intro fuel
  induction fuel with
  | zero => intro k s hs; simp [igWaitFinishedAppAux] at hs
  | succ n ih =>
    intro k s hs
    rw [igWaitFinishedAppAux] at hs
    by_cases h1 : (poll k).isReady
    · rw [if_pos h1] at hs
      cases hs
    · rw [if_neg h1] at hs
      by_cases h2 : (poll k).isFailedState
      · rw [if_pos h2] at hs
        cases hs
        exact h2
      · rw [if_neg h2] at hs
        exact ih (k + 1) s hs

/-- Helper: the `streamlit_app.py` poll loop returns normally only with
a FINISHED/PUBLISHED status. -/
theorem igWaitFinishedStreamlitAux_ready (poll : ℕ → IgStatus) :
    ∀ fuel k s, igWaitFinishedStreamlitAux poll k fuel = .ready s →
      s.isReady = true := by
  intro fuel
  induction fuel with
  | zero => intro k s hs; simp [igWaitFinishedStreamlitAux] at hs
  | succ n ih =>
    intro k s hs
    rw [igWaitFinishedStreamlitAux] at hs
    by_cases h1 : (poll k).isReady
    · rw [if_pos h1] at hs
      cases hs
      exact h1
    · rw [if_neg h1] at hs
      exact ih (k + 1) s hs

/-- Helper: the `streamlit_app.py` poll loop never produces the
explicit-failure outcome. -/
theorem igWaitFinishedStreamlitAux_ne_failed (poll : ℕ → IgStatus) :
    ∀ fuel k s, igWaitFinishedStreamlitAux poll k fuel ≠ .failed s := by
  intro fuel
  induction fuel with
  | zero => intro k s hs; simp [igWaitFinishedStreamlitAux] at hs
  | succ n ih =>
    intro k s hs
    rw [igWaitFinishedStreamlitAux] at hs
    by_cases h1 : (poll k).isReady
    · rw [if_pos h1] at hs
      cases hs
    · rw [if_neg h1] at hs
      exact ih (k + 1) s hs

/-- C4, counterexample: the `streamlit_app.py` polling loop, fed a
constant ERROR status, exhausts its budget and raises the timeout
condition — the explicit ERROR status is never raised as a condition
distinct from timeout, contradicting the claim for that loop. -/
theorem claim4_counterexample :
    igWaitFinishedStreamlit (fun _ => .error) 3 = .timeout ∧
    igWaitFinishedStreamlit (fun _ => .error) 3 ≠ .failed .error ∧
    igWaitFinishedStreamlit (fun _ => .error) 3 ≠ .failed .expired := by
  decide

/-- C4, amended: the `app_post_instagram.py` (and `publish_gcs_to_ig.py`)
poll returns normally only on FINISHED/PUBLISHED, raises a
`RuntimeError` exactly on ERROR/EXPIRED (a condition distinct from the
`TimeoutError` raised when the budget is exhausted); the
`streamlit_app.py` poll also returns only on FINISHED/PUBLISHED but has
no ERROR/EXPIRED branch, so an explicit failure status is never raised
as a condition distinct from timeout there. -/
theorem claim4_amended (poll : ℕ → IgStatus) (fuel : ℕ) :
    (∀ s, igWaitFinishedApp poll fuel = .ready s → s.isReady = true) ∧
    (∀ s, igWaitFinishedApp poll fuel = .failed s →
      s.isFailedState = true) ∧
    (∀ s, igWaitFinishedStreamlit poll fuel = .ready s →
      s.isReady = true) ∧
    (∀ s, igWaitFinishedStreamlit poll fuel ≠ .failed s) :=
  ⟨fun s => igWaitFinishedAppAux_ready poll fuel 0 s,
   fun s => igWaitFinishedAppAux_failed poll fuel 0 s,
   fun s => igWaitFinishedStreamlitAux_ready poll fuel 0 s,
   fun s => igWaitFinishedStreamlitAux_ne_failed poll fuel 0 s⟩

/-- C4, witness: the amended statement applied to a poll that reports
FINISHED at once and to one that reports ERROR at once. -/
theorem claim4_witness :
    IgStatus.isReady .finished = true ∧
    IgStatus.isFailedState .error = true :=
  ⟨(claim4_amended (fun _ => .finished) 1).1 .finished (by decide),
   (claim4_amended (fun _ => .error) 1).2.1 .error (by decide)⟩

/-- Helper: `isReadyR` means the wait returned normally with some
status. -/
theorem WaitResult.isReadyR_iff (r : WaitResult) :
    r.isReadyR = true ↔ ∃ s, r = .ready s := by
  cases r <;> simp [WaitResult.isReadyR]

/-- Helper: every index collected by the streamlit children loop passed
its per-child check. -/
theorem streamlitChildrenLoop_children_ok (childOk : ℕ → Bool) :
    ∀ n k i, i ∈ (streamlitChildrenLoop childOk k n).1 →
      childOk i = true := by
  intro n
  induction n with
  | zero => intro k i hi; simp [streamlitChildrenLoop] at hi
  | succ m ih =>
    intro k i hi
    rw [streamlitChildrenLoop] at hi
    by_cases hk : childOk k
    · rw [if_pos hk] at hi
      rcases List.mem_cons.mp hi with h | h
      · exact h ▸ hk
      · exact ih (k + 1) i h
    · rw [if_neg hk] at hi
      simp at hi

/-- Helper: when the streamlit children loop completed, it collected
every processed index. -/
theorem streamlitChildrenLoop_complete (childOk : ℕ → Bool) :
    ∀ n k, (streamlitChildrenLoop childOk k n).2.2 = true →
      (streamlitChildrenLoop childOk k n).1 = List.range' k n := by
  intro n
  induction n with
  | zero => intro k _; simp [streamlitChildrenLoop]
  | succ m ih =>
    intro k hc
    rw [streamlitChildrenLoop] at hc ⊢
    by_cases hk : childOk k
    · rw [if_pos hk] at hc ⊢
      simp only [List.range'_succ]
      simp only at hc
      rw [ih (k + 1) hc]
    · rw [if_neg hk] at hc
      simp at hc

/-- Helper: index membership in the streamlit children loop's
`attempted` list: an index was attempted iff it is in range and every
earlier processed index passed its check. -/
theorem streamlitChildrenLoop_attempted (childOk : ℕ → Bool) :
    ∀ n k j, j ∈ (streamlitChildrenLoop childOk k n).2.1 ↔
      (k ≤ j ∧ j < k + n ∧ ∀ i, k ≤ i → i < j → childOk i = true) := by
  intro n
  induction n with
  | zero =>
    intro k j
    simp only [streamlitChildrenLoop, List.not_mem_nil, false_iff]
    omega
  | succ m ih =>
    intro k j
    rw [streamlitChildrenLoop]
    by_cases hk : childOk k
    · rw [if_pos hk]
      simp only [List.mem_cons, ih (k + 1) j]
      constructor
      · rintro (rfl | ⟨h1, h2, h3⟩)
        · exact ⟨le_refl _, by omega, fun i hi hij => absurd hij (by omega)⟩
        · refine ⟨by omega, by omega, fun i hi hij => ?_⟩
          rcases Nat.eq_or_lt_of_le hi with rfl | hlt
          · exact hk
          · exact h3 i hlt hij
      · rintro ⟨h1, h2, h3⟩
        rcases Nat.eq_or_lt_of_le h1 with rfl | hlt
        · exact Or.inl rfl
        · exact Or.inr ⟨hlt, by omega, fun i hi hij => h3 i (by omega) hij⟩
    · rw [if_neg hk]
      simp only [List.mem_cons, List.not_mem_nil, or_false]
      constructor
      · rintro rfl
        exact ⟨le_refl _, by omega, fun i hi hij => absurd hij (by omega)⟩
      · rintro ⟨h1, h2, h3⟩
        rcases Nat.eq_or_lt_of_le h1 with rfl | hlt
        · rfl
        · exact absurd (h3 k (le_refl _) hlt) (by simp [hk])

/-- C5 (confirmed): in both carousel publish flows, every id in the
children list of the created parent was polled to a ready
(FINISHED/PUBLISHED) state; the parent is created only when the
confirmed-children list is non-empty (in the streamlit block the loop
must have completed over the folder's non-empty video list); and the
publish call is issued only after the parent itself was polled to a
ready state. -/
theorem claim5_parent_assembly (n : ℕ) (preOk : ℕ → Bool)
    (childPoll : ℕ → ℕ → IgStatus) (childFuel : ℕ → ℕ)
    (parentCreateOk : Bool) (parentPoll : ℕ → IgStatus) (parentFuel : ℕ) :
    (∀ i ∈ (publishFlowApp n preOk childPoll childFuel parentCreateOk
        parentPoll parentFuel).children,
      ∃ s, igWaitFinishedApp (childPoll i) (childFuel i) = .ready s ∧
        s.isReady = true) ∧
    ((publishFlowApp n preOk childPoll childFuel parentCreateOk
        parentPoll parentFuel).parentAttempted = true →
      (publishFlowApp n preOk childPoll childFuel parentCreateOk
        parentPoll parentFuel).children ≠ []) ∧
    ((publishFlowApp n preOk childPoll childFuel parentCreateOk
        parentPoll parentFuel).publishIssued = true →
      ∃ s, igWaitFinishedApp parentPoll parentFuel = .ready s ∧
        s.isReady = true) ∧
    (∀ i ∈ (publishFlowStreamlit n preOk childPoll childFuel
        parentCreateOk parentPoll parentFuel).children,
      ∃ s, igWaitFinishedStreamlit (childPoll i) (childFuel i) = .ready s ∧
        s.isReady = true) ∧
    (0 < n →
      (publishFlowStreamlit n preOk childPoll childFuel parentCreateOk
        parentPoll parentFuel).parentAttempted = true →
      (publishFlowStreamlit n preOk childPoll childFuel parentCreateOk
        parentPoll parentFuel).children ≠ []) ∧
    ((publishFlowStreamlit n preOk childPoll childFuel parentCreateOk
        parentPoll parentFuel).publishIssued = true →
      ∃ s, igWaitFinishedStreamlit parentPoll parentFuel = .ready s ∧
        s.isReady = true) := by
  refine ⟨?_, ?_, ?_, ?_, ?_, ?_⟩
  · intro i hi
    simp only [publishFlowApp, List.mem_filter] at hi
    obtain ⟨-, hok⟩ := hi
    rw [Bool.and_eq_true] at hok
    obtain ⟨-, hr⟩ := hok
    obtain ⟨s, hs⟩ := (WaitResult.isReadyR_iff _).mp hr
    exact ⟨s, hs, igWaitFinishedAppAux_ready (childPoll i) (childFuel i) 0 s hs⟩
  · intro hpa
    simp only [publishFlowApp] at hpa ⊢
    simpa using hpa
  · intro hpub
    simp only [publishFlowApp] at hpub
    rw [Bool.and_eq_true] at hpub
    obtain ⟨-, hr⟩ := hpub
    obtain ⟨s, hs⟩ := (WaitResult.isReadyR_iff _).mp hr
    exact ⟨s, hs, igWaitFinishedAppAux_ready parentPoll parentFuel 0 s hs⟩
  · intro i hi
    simp only [publishFlowStreamlit] at hi
    have hok := streamlitChildrenLoop_children_ok _ n 0 i hi
    rw [Bool.and_eq_true] at hok
    obtain ⟨-, hr⟩ := hok
    obtain ⟨s, hs⟩ := (WaitResult.isReadyR_iff _).mp hr
    exact ⟨s, hs,
      igWaitFinishedStreamlitAux_ready (childPoll i) (childFuel i) 0 s hs⟩
  · intro hn hpa
    simp only [publishFlowStreamlit] at hpa ⊢
    rw [streamlitChildrenLoop_complete _ n 0 hpa]
    simp [List.range'_eq_nil]
    omega
  · intro hpub
    simp only [publishFlowStreamlit] at hpub
    rw [Bool.and_eq_true] at hpub
    obtain ⟨-, hr⟩ := hpub
    obtain ⟨s, hs⟩ := (WaitResult.isReadyR_iff _).mp hr
    exact ⟨s, hs,
      igWaitFinishedStreamlitAux_ready parentPoll parentFuel 0 s hs⟩

/-- C5, witness: a single-video folder whose upload, child poll and
parent poll all succeed yields a non-empty children list in the
streamlit flow. -/
theorem claim5_witness :
    (publishFlowStreamlit 1 (fun _ => true) (fun _ _ => .finished)
      (fun _ => 1) true (fun _ => .finished) 1).children ≠ [] :=
  (claim5_parent_assembly 1 (fun _ => true) (fun _ _ => .finished)
    (fun _ => 1) true (fun _ => .finished) 1).2.2.2.2.1
    (by decide) (by decide)

/-- C8, counterexample: in the `streamlit_app.py` carousel publish
block, the first video's failure aborts the whole `try`, so the second
video — which would have succeeded — is never attempted; the
`app_post_instagram.py` publish loop attempts both. -/
theorem claim8_counterexample :
    (publishFlowStreamlit 2 (fun i => decide (i ≠ 0))
      (fun _ _ => .finished) (fun _ => 1) true
      (fun _ => .finished) 1).attempted = [0] ∧
    1 ∉ (publishFlowStreamlit 2 (fun i => decide (i ≠ 0))
      (fun _ _ => .finished) (fun _ => 1) true
      (fun _ => .finished) 1).attempted ∧
    ((fun i => decide (i ≠ 0)) 1 &&
      (igWaitFinishedStreamlit ((fun _ _ => IgStatus.finished) 1) 1).isReadyR)
      = true ∧
    (publishFlowApp 2 (fun i => decide (i ≠ 0)) (fun _ _ => .finished)
      (fun _ => 1) true (fun _ => .finished) 1).attempted = [0, 1] := by
  decide

/-- C8, amended: per-track failures in both video-generation loops are
caught and never abort the remaining tracks (the done counter always
reaches the track count), and in the `app_post_instagram.py` publish
loop every video of a batch is attempted regardless of earlier
failures; in the `streamlit_app.py` carousel publish block, however, a
video is attempted only when every earlier video of the same folder
succeeded, so one child's failure aborts its remaining siblings.
Configuration-level failures (missing cover, missing credentials) are
checked before the loops and abort the whole run. -/
theorem claim8_amended (outs : List GenOutcome) (s : FsState) (n : ℕ)
    (preOk : ℕ → Bool) (childPoll : ℕ → ℕ → IgStatus)
    (childFuel : ℕ → ℕ) (parentCreateOk : Bool)
    (parentPoll : ℕ → IgStatus) (parentFuel : ℕ) :
    (genLoopApp outs s).2 = outs.length ∧
    (genLoopStreamlit outs s).2 = outs.length ∧
    (publishFlowApp n preOk childPoll childFuel parentCreateOk
      parentPoll parentFuel).attempted = List.range n ∧
    (∀ j, j ∈ (publishFlowStreamlit n preOk childPoll childFuel
        parentCreateOk parentPoll parentFuel).attempted ↔
      (j < n ∧ ∀ i, i < j →
        (preOk i &&
          (igWaitFinishedStreamlit (childPoll i) (childFuel i)).isReadyR)
          = true)) := by
  refine ⟨?_, ?_, rfl, ?_⟩
  · induction outs generalizing s with
    | nil => rfl
    | cons o rest ih => simp [genLoopApp, ih]
  · induction outs generalizing s with
    | nil => rfl
    | cons o rest ih => simp [genLoopStreamlit, ih]
  · intro j
    simp only [publishFlowStreamlit]
    rw [streamlitChildrenLoop_attempted]
    constructor
    · rintro ⟨-, h2, h3⟩
      exact ⟨by omega, fun i hij => h3 i (Nat.zero_le i) hij⟩
    · rintro ⟨h1, h2⟩
      exact ⟨Nat.zero_le j, by omega, fun i _ hij => h2 i hij⟩

/-- C8, witness: in a single-video streamlit publish with everything
succeeding, video 0 is attempted. -/
theorem claim8_witness :
    0 ∈ (publishFlowStreamlit 1 (fun _ => true) (fun _ _ => .finished)
      (fun _ => 1) true (fun _ => .finished) 1).attempted :=
  ((claim8_amended [] ⟨false, false, []⟩ 1 (fun _ => true)
      (fun _ _ => .finished) (fun _ => 1) true
      (fun _ => .finished) 1).2.2.2 0).mpr
    ⟨by decide, fun i hi => absurd hi (Nat.not_lt_zero i)⟩

/-- C9 (confirmed): in `fetch_release_info`, a price field obtained from
the primary stats endpoint is never overwritten by the
price-suggestion fallback, and a fallback value lands only in fields
that were `None` after the stats call. -/
theorem claim9_fallback_fills_gaps_only
    (pmin pmed pmax smin smed smax : Option ℚ) (v : ℚ) :
    (pmin = some v →
      (fillMissingPrices pmin pmed pmax smin smed smax).1 = some v) ∧
    (pmed = some v →
      (fillMissingPrices pmin pmed pmax smin smed smax).2.1 = some v) ∧
    (pmax = some v →
      (fillMissingPrices pmin pmed pmax smin smed smax).2.2 = some v) ∧
    ((fillMissingPrices pmin pmed pmax smin smed smax).1 ≠ pmin →
      pmin = none ∧
      (fillMissingPrices pmin pmed pmax smin smed smax).1 = smin) ∧
    ((fillMissingPrices pmin pmed pmax smin smed smax).2.1 ≠ pmed →
      pmed = none ∧
      (fillMissingPrices pmin pmed pmax smin smed smax).2.1 = smed) ∧
    ((fillMissingPrices pmin pmed pmax smin smed smax).2.2 ≠ pmax →
      pmax = none ∧
      (fillMissingPrices pmin pmed pmax smin smed smax).2.2 = smax) := by
  cases pmin <;> cases pmed <;> cases pmax <;>
    simp [fillMissingPrices]

/-- C9, witness: stats gave min 3 and max 7 but no median, the fallback
suggests 1/5/9; only the median gap is filled. -/
theorem claim9_witness :
    (fillMissingPrices (some 3) none (some 7) (some 1) (some 5) (some 9)).1
      = some 3 ∧
    (fillMissingPrices (some 3) none (some 7) (some 1) (some 5) (some 9)).2.1
      = some 5 :=
  ⟨(claim9_fallback_fills_gaps_only (some 3) none (some 7)
      (some 1) (some 5) (some 9) 3).1 rfl,
   ((claim9_fallback_fills_gaps_only (some 3) none (some 7)
      (some 1) (some 5) (some 9) 5).2.2.2.2.1 (by decide)).2⟩

/-- Helper: `isSome` commutes with `Option.map`. -/
theorem isSome_map_model {α β : Type} (f : α → β) (o : Option α) :
    (o.map f).isSome = o.isSome := by
  cases o <;> rfl

/-- Helper: `re.match(r"(\d+)", s)` succeeds exactly when `s` begins
with a digit. -/
theorem leadingNat_isSome_iff (s : String) :
    (leadingNat s).isSome = true ↔ ∃ c cs, s.data = c :: cs ∧ c.isDigit := by
  rcases hd : s.data with _ | ⟨c, cs⟩
  · simp [leadingNat, hd]
  · by_cases hdig : c.isDigit
    · simp [leadingNat, hd, List.takeWhile_cons, hdig]
    · simp [leadingNat, hd, List.takeWhile_cons, hdig]

/-- Helper: the language-prefix drop either does nothing or removes one
leading two-character segment. -/
theorem dropLangPrefix_eq_or (parts : List String) :
    dropLangPrefix parts = parts ∨
      ∃ x rest, x.length = 2 ∧ parts = x :: rest ∧
        dropLangPrefix parts = rest := by
  match parts with
  | [] => exact Or.inl rfl
  | [a] => exact Or.inl rfl
  | a :: b :: r =>
    by_cases ha : a.length = 2
    · exact Or.inr ⟨a, b :: r, ha, rfl, by simp [dropLangPrefix, ha]⟩
    · exact Or.inl (by simp [dropLangPrefix, ha])

/-- Helper: no drop happens when the first of two-or-more segments is
not two characters long. -/
theorem dropLangPrefix_of_ne (a b : String) (r : List String)
    (h : a.length ≠ 2) : dropLangPrefix (a :: b :: r) = a :: b :: r := by
  simp [dropLangPrefix, h]

/-- Helper: the drop removes exactly the first of two-or-more segments
when it is two characters long. -/
theorem dropLangPrefix_of_eq (a b : String) (r : List String)
    (h : a.length = 2) : dropLangPrefix (a :: b :: r) = b :: r := by
  simp [dropLangPrefix, h]

/-- Helper: `_extract_release_or_master_id` succeeds exactly on the
paths described by the claim. -/
theorem extractReleaseOrMasterId_isSome_iff (path : String) :
    (extractReleaseOrMasterId path).isSome = true ↔ specUrlParses path := by
  constructor
  · intro hsome
    rcases hd : dropLangPrefix (pathSegments path) with _ | ⟨kind, _ | ⟨second, tail⟩⟩
    · simp only [extractReleaseOrMasterId, hd] at hsome
      simp at hsome
    · simp only [extractReleaseOrMasterId, hd] at hsome
      simp at hsome
    · simp only [extractReleaseOrMasterId, hd] at hsome
      by_cases hk : kind = "release" ∨ kind = "master"
      · rw [if_pos hk] at hsome
        rw [isSome_map_model] at hsome
        obtain ⟨c, cs, hdata, hdig⟩ := (leadingNat_isSome_iff second).mp hsome
        rcases dropLangPrefix_eq_or (pathSegments path) with heq |
          ⟨x, rest, hx2, hxe, hdrop⟩
        · exact ⟨kind :: second :: tail, Or.inl (heq.symm.trans hd),
            kind, second, tail, rfl, hk, c, cs, hdata, hdig⟩
        · have hrk : rest = kind :: second :: tail := hdrop.symm.trans hd
          exact ⟨kind :: second :: tail,
            Or.inr ⟨x, hx2, by rw [hxe, hrk]⟩,
            kind, second, tail, rfl, hk, c, cs, hdata, hdig⟩
      · rw [if_neg hk] at hsome
        simp at hsome
  · rintro ⟨rest, hconn, kind, second, tail, hrest, hkind, c, cs, hdata, hdig⟩
    subst hrest
    have hdl : dropLangPrefix (pathSegments path) = kind :: second :: tail := by
      rcases hconn with heq | ⟨x, hx2, hxe⟩
      · rw [heq]
        have hklen : kind.length ≠ 2 := by
          rcases hkind with rfl | rfl <;> decide
        exact dropLangPrefix_of_ne _ _ _ hklen
      · rw [hxe]
        exact dropLangPrefix_of_eq _ _ _ hx2
    simp only [extractReleaseOrMasterId, hdl]
    rw [if_pos hkind, isSome_map_model]
    exact (leadingNat_isSome_iff second).mpr ⟨c, cs, hdata, hdig⟩

/-- C10 (confirmed): `_extract_release_or_master_id` raises `ValueError`
exactly when the URL's path, after optionally dropping a single leading
two-character language segment, does not consist of a segment equal to
`release` or `master` followed by a segment beginning with one or more
digits; otherwise it extracts the leading integer of that segment as
the id and does not raise at the parsing stage. -/
theorem claim10_url_parse (path : String) :
    (extractReleaseOrMasterId path = none ↔ ¬ specUrlParses path) ∧
    (∀ kind n, extractReleaseOrMasterId path = some (kind, n) →
      ∃ second tail,
        dropLangPrefix (pathSegments path) = kind :: second :: tail ∧
        leadingNat second = some n) := by
  constructor
  · have hiff := extractReleaseOrMasterId_isSome_iff path
    constructor
    · intro hnone hspec
      have hs := hiff.mpr hspec
      rw [hnone] at hs
      simp at hs
    · intro hns
      cases he : extractReleaseOrMasterId path with
      | none => rfl
      | some v => exact absurd (hiff.mp (by rw [he]; rfl)) hns
  · intro kind n h
    rcases hd : dropLangPrefix (pathSegments path) with _ | ⟨kind', _ | ⟨second, tail⟩⟩
    · simp only [extractReleaseOrMasterId, hd] at h
      simp at h
    · simp only [extractReleaseOrMasterId, hd] at h
      simp at h
    · simp only [extractReleaseOrMasterId, hd] at h
      by_cases hk : kind' = "release" ∨ kind' = "master"
      · rw [if_pos hk] at h
        rw [Option.map_eq_some'] at h
        obtain ⟨m, hm, hfm⟩ := h
        injection hfm with h1 h2
        subst h1
        subst h2
        exact ⟨second, tail, rfl, hm⟩
      · rw [if_neg hk] at h
        simp at h

/-- C10, witness: the path `/artist/99` is rejected (`ValueError`) —
its first segment is neither `release` nor `master`. -/
theorem claim10_witness : ¬ specUrlParses "/artist/99" :=
  (claim10_url_parse "/artist/99").1.mp (by decide)

end DiscogsTool
